import Mathlib

/-!
Shallow embedding of the video/thumbnail upload pipeline of
`handler_upload_video.go` (package main).  The file holds four revisions of
the handlers, separated by document markers; we embed the parts the claims
cite: the first revision of `handlerUploadVideo` (whose early error paths
lack `return`), the second revision (with ffmpeg/ffprobe processing), the
first revision of `handlerUploadThumbnail` (random-token filename), and the
helpers `getVideoAspectRatio`, `processVideoForFastStart`,
`getFileExtension`.

External collaborators (uuid.Parse, auth, the record store, os, crypto/rand,
ffmpeg/ffprobe invocation, S3) are modelled as oracles supplied to the
handler; disk, the record row and the object store are an explicit `World`
threaded through the handler exactly along Go's control flow, with the
`defer os.Remove` cleanups applied on each exit path at the point Go would
run them.  Go's float64 ratio arithmetic is modelled with exact rationals
(the probed widths/heights are integers, and the tolerance-band constants
1.7, 1.8, 0.55, 0.57 are decimal literals, so ℚ reproduces the intended
comparisons).
-/

/-- The metadata record held by the external store (database.Video).  The
`title` field stands for all non-locator metadata carried through
unchanged; the two locator fields are the only ones the handlers write. -/
structure Video where
  id : String
  userID : String
  title : String
  thumbnailURL : Option String
  videoURL : Option String
deriving Repr, DecidableEq

/-- Zero value of the record, produced by Go when an assignment's error is
ignored. -/
def Video.zero : Video := ⟨"", "", "", none, none⟩

/-- Observable state outside the process: files on disk, the target record
row in the store, and the objects put to S3 (key paired with the
content-type metadata sent alongside the bytes). -/
structure World where
  files : List String
  dbVideo : Option Video
  s3Objects : List (String × String)
deriving Repr, DecidableEq

def addFile (w : World) (p : String) : World :=
  { w with files := w.files ++ [p] }

def removeFile (w : World) (p : String) : World :=
  { w with files := w.files.filter (fun q => q != p) }

def putS3 (w : World) (key contentType : String) : World :=
  { w with s3Objects := w.s3Objects ++ [(key, contentType)] }

/-- One response written via respondWithError / respondWithJSON: an error
with HTTP status and message detail, or the updated record on success. -/
inductive Resp where
  | err (status : Nat) (msg : String)
  | ok (video : Video)
deriving Repr, DecidableEq

def Resp.isErr : Resp → Bool
  | .err _ _ => true
  | .ok _ => false

/-- Immutable configuration of apiConfig used by the embedded handlers. -/
structure ApiConfig where
  s3Bucket : String
  s3Region : String
  port : String
  assetsRoot : String

/- ### base64.RawURLEncoding -/

/-- The URL-safe base64 alphabet (RFC 4648 §5). -/
def base64UrlAlphabet : List Char :=
  [ 'A', 'B', 'C', 'D', 'E', 'F', 'G', 'H', 'I', 'J', 'K', 'L', 'M',
    'N', 'O', 'P', 'Q', 'R', 'S', 'T', 'U', 'V', 'W', 'X', 'Y', 'Z',
    'a', 'b', 'c', 'd', 'e', 'f', 'g', 'h', 'i', 'j', 'k', 'l', 'm',
    'n', 'o', 'p', 'q', 'r', 's', 't', 'u', 'v', 'w', 'x', 'y', 'z',
    '0', '1', '2', '3', '4', '5', '6', '7', '8', '9', '-', '_' ]

def b64Char (n : Nat) : Char := base64UrlAlphabet.getD n 'A'

/-- base64.RawURLEncoding.EncodeToString: URL-safe base64, no padding.
Bytes are Nats < 256; three input bytes yield four alphabet characters,
a two-byte tail yields three, a one-byte tail yields two. -/
def base64RawURLEncode : List Nat → String
  | [] => ""
  | [b1] =>
      String.mk [b64Char (b1 / 4), b64Char (b1 % 4 * 16)]
  | [b1, b2] =>
      String.mk [b64Char (b1 / 4), b64Char (b1 % 4 * 16 + b2 / 16),
                 b64Char (b2 % 16 * 4)]
  | b1 :: b2 :: b3 :: rest =>
      String.mk [b64Char (b1 / 4), b64Char (b1 % 4 * 16 + b2 / 16),
                 b64Char (b2 % 16 * 4 + b3 / 64), b64Char (b3 % 64)]
        ++ base64RawURLEncode rest

/- ### mime.ParseMediaType (external collaborator, Go standard library) -/

/-- The tspecials characters of Go's mime grammar (mime/grammar.go,
isTSpecial). -/
def isTSpecial (ch : Char) : Bool :=
  "()<>@,;:\\\"/[]?=".data.contains ch

/-- Token characters accepted by Go's mime parser (mime/grammar.go,
isTokenChar): any printable ASCII character above space that is not a
tspecial. -/
def isTokenChar (ch : Char) : Bool :=
  ch.val > 0x20 && ch.val < 0x7f && !isTSpecial ch

/-- Model of the external `mime.ParseMediaType` collaborator restricted to
the media-type part the handlers consume: the text before any `;`
parameter list, space-trimmed and lowercased, then checked like Go's
checkMediaTypeDisposition — a bare token with nothing after it is
accepted as-is, a token `/` token pair with nothing after it is accepted,
and anything else (no leading token, content other than `/` after the
first token, no token after the slash, trailing content after the
subtype) is a parse error.  (Validation of the parameter list after the
first `;` is not modelled.) -/
def parseMediaType (v : String) : Except Unit String :=
  let base := ((v.data.takeWhile (fun ch => ch != ';')).dropWhile
      (fun ch => ch == ' ')).reverse.dropWhile (fun ch => ch == ' ')
    |>.reverse.map Char.toLower
  if (base.takeWhile isTokenChar).isEmpty then .error ()
  else
    match base.dropWhile isTokenChar with
    | [] => .ok (String.mk base)
    | '/' :: afterSlash =>
        if (afterSlash.takeWhile isTokenChar).isEmpty then .error ()
        else if (afterSlash.dropWhile isTokenChar).isEmpty then
          .ok (String.mk base)
        else .error ()
    | _ => .error ()

/- ### getVideoAspectRatio -/

/-- The classification arithmetic of getVideoAspectRatio, applied to the
stream list decoded from ffprobe's JSON (per stream: width, height).  The
Go code reads only the first stream; no streams or zero height give
"other"; otherwise ratio = width / height is checked against the
tolerance bands around 16:9 and 9:16. -/
def classifyStreams (streams : List (Int × Int)) : String :=
  match streams with
  | [] => "other"
  | (w, h) :: _ =>
      if h = 0 then "other"
      else
        -- ratio := width / height, exact; the literals 1.7, 1.8, 0.55, 0.57
        -- are written as the rationals 17/10, 9/5, 11/20, 57/100 (the
        -- kernel-computable constructors are used so runs evaluate)
        let ratio : ℚ := Rat.divInt w h
        if mkRat 17 10 < ratio ∧ ratio < mkRat 9 5 then "16:9"
        else if mkRat 11 20 < ratio ∧ ratio < mkRat 57 100 then "9:16"
        else "other"

/-- getVideoAspectRatio: runs ffprobe against the file path and classifies
the first stream's geometry.  The ffprobe invocation plus JSON decode is
the oracle `probe` (error value = the tool or unmarshal failure). -/
def getVideoAspectRatio (probe : String → Except String (List (Int × Int)))
    (filePath : String) : Except String String :=
  match probe filePath with
  | .error e => .error ("could not run ffprobe: " ++ e)
  | .ok streams => .ok (classifyStreams streams)

/-- The orchestrator's switch from the aspect-ratio tag to the S3 key
namespace segment (step 11 of the second handler revision). -/
def s3KeySegmentOfAspect (aspectRatio : String) : String :=
  if aspectRatio = "16:9" then "landscape"
  else if aspectRatio = "9:16" then "portrait"
  else "other"

/- ### processVideoForFastStart -/

/-- processVideoForFastStart: invokes ffmpeg writing to
filePath ++ ".processing" and returns that path on success.  `exitOk` is
whether the tool exits zero; `writesOutput` is whether the invocation
leaves an output file on disk (always true for success, possibly true for
failure — ffmpeg may have created an incomplete file before failing).  The
function itself removes nothing on the failure path. -/
def processVideoForFastStart (filePath : String) (exitOk writesOutput : Bool)
    (w : World) : Except String String × World :=
  let processedFilePath := filePath ++ ".processing"
  let w' := if exitOk || writesOutput then addFile w processedFilePath else w
  if exitOk then (.ok processedFilePath, w')
  else (.error "could not run ffmpeg", w')

/- ### getFileExtension -/

/-- getFileExtension: maps a content type to the file extension used for
thumbnail filenames; unknown types are an error naming the type. -/
def getFileExtension (contentType : String) : Except String String :=
  if contentType = "image/jpeg" then .ok ".jpg"
  else if contentType = "image/png" then .ok ".png"
  else if contentType = "image/gif" then .ok ".gif"
  else .error ("unsupported content type: " ++ contentType)

/- ### handlerUploadVideo, second revision (with processing) -/

/-- Oracles standing for the external collaborators the video handler
calls, in call order.  Success values carry what the handler reads from
the call (the token, the part's declared Content-Type, the temp path, the
random bytes); `probe` is the per-path ffprobe behaviour. -/
structure VideoCollab where
  uuidParse : Except Unit String
  getBearerToken : Except Unit String
  validateJWT : Except Unit String
  formFile : Except Unit String
  createTemp : Except Unit String
  copyOk : Bool
  seekOk : Bool
  ffmpegExitOk : Bool
  ffmpegWritesOutput : Bool
  probe : String → Except String (List (Int × Int))
  randRead : Except Unit (List Nat)
  openProcessedOk : Bool
  s3PutOk : Bool
  updateVideoOk : Bool

/-- Result of one video-handler run: the response written, the final
external world, the list of paths handed to ffprobe, and the records
submitted to the store's UpdateVideo (in call order, whether or not the
update succeeded). -/
structure VideoOutcome where
  resp : Resp
  world : World
  probed : List String
  updateCalls : List Video
deriving Repr, DecidableEq

/-- Embedding of the second revision of handlerUploadVideo (the revision
with fast-start processing and aspect classification).  Each error branch
returns at once, applying exactly the deferred `os.Remove` cleanups
registered by that point: the staged temp file once CreateTemp succeeded,
and additionally the processed file once processVideoForFastStart
succeeded. -/
def handlerUploadVideo (cfg : ApiConfig) (c : VideoCollab) (w0 : World) :
    VideoOutcome :=
  -- 2. extract and parse videoID
  match c.uuidParse with
  | .error _ => ⟨.err 400 "Invalid video ID", w0, [], []⟩
  | .ok _videoID =>
  -- 3. authenticate
  match c.getBearerToken with
  | .error _ => ⟨.err 401 "Couldn't find JWT", w0, [], []⟩
  | .ok _token =>
  match c.validateJWT with
  | .error _ => ⟨.err 401 "Couldn't validate JWT", w0, [], []⟩
  | .ok userID =>
  -- 4. get video metadata and check ownership
  match w0.dbVideo with
  | none => ⟨.err 404 "Video not found", w0, [], []⟩
  | some video =>
  if video.userID ≠ userID then
    ⟨.err 401 "You are not authorized to upload this video", w0, [], []⟩
  else
  -- 5. uploaded part from form data
  match c.formFile with
  | .error _ => ⟨.err 400 "Couldn't get video file from form", w0, [], []⟩
  | .ok contentType =>
  -- 6. validate the declared type
  match parseMediaType contentType with
  | .error _ => ⟨.err 400 "Failed to parse media type", w0, [], []⟩
  | .ok parsedMediaType =>
  if parsedMediaType ≠ "video/mp4" then
    ⟨.err 400 ("Unsupported file type: " ++ parsedMediaType ++
        ". Only MP4 videos are allowed."), w0, [], []⟩
  else
  -- 7. temp file on disk (defer os.Remove / Close from here on)
  match c.createTemp with
  | .error _ => ⟨.err 500 "Couldn't create temp file", w0, [], []⟩
  | .ok tempPath =>
  let w1 := addFile w0 tempPath
  -- 8. copy contents over
  if !c.copyOk then
    ⟨.err 500 "Couldn't copy video to temp file", removeFile w1 tempPath,
      [], []⟩
  else
  -- 9. rewind
  if !c.seekOk then
    ⟨.err 500 "Couldn't reset temp file pointer", removeFile w1 tempPath,
      [], []⟩
  else
  -- 10. fast-start processing
  match processVideoForFastStart tempPath c.ffmpegExitOk
      c.ffmpegWritesOutput w1 with
  | (.error _, w2) =>
      ⟨.err 500 "Couldn't process video for fast start",
        removeFile w2 tempPath, [], []⟩
  | (.ok processedFilePath, w2) =>
  -- defer os.Remove(processedFilePath) from here on
  -- 11. aspect ratio of the original staged file
  match getVideoAspectRatio c.probe tempPath with
  | .error _ =>
      ⟨.err 500 "Couldn't get video aspect ratio",
        removeFile (removeFile w2 processedFilePath) tempPath,
        [tempPath], []⟩
  | .ok aspectRatio =>
  let keySegment := s3KeySegmentOfAspect aspectRatio
  -- 12. random key and S3 put
  match c.randRead with
  | .error _ =>
      ⟨.err 500 "Could not generate random filename for S3 key",
        removeFile (removeFile w2 processedFilePath) tempPath,
        [tempPath], []⟩
  | .ok randBytes =>
  let s3Key := keySegment ++ "/" ++ base64RawURLEncode randBytes ++ ".mp4"
  if !c.openProcessedOk then
    ⟨.err 500 "Couldn't open processed video file",
      removeFile (removeFile w2 processedFilePath) tempPath, [tempPath], []⟩
  else
  if !c.s3PutOk then
    ⟨.err 500 "Couldn't upload file to S3",
      removeFile (removeFile w2 processedFilePath) tempPath, [tempPath], []⟩
  else
  let w3 := putS3 w2 s3Key contentType
  -- 13. update the record with the S3 URL
  let videoURL := "https://" ++ cfg.s3Bucket ++ ".s3." ++ cfg.s3Region ++
    ".amazonaws.com/" ++ s3Key
  let video2 := { video with videoURL := some videoURL }
  if !c.updateVideoOk then
    ⟨.err 500 "Couldn't update video record",
      removeFile (removeFile w3 processedFilePath) tempPath, [tempPath],
      [video2]⟩
  else
  -- 14. respond with the updated record
  ⟨.ok video2,
    removeFile (removeFile { w3 with dbVideo := some video2 }
      processedFilePath) tempPath,
    [tempPath], [video2]⟩

/- ### handlerUploadVideo, first revision (early error paths lack return) -/

/-- Oracles for the first revision of handlerUploadVideo, which has no
processing step and no key namespace; GetVideo is an oracle here because
the handler may reach it with the zero videoID after a parse failure. -/
structure V1Collab where
  uuidParse : Except Unit String
  getBearerToken : Except Unit String
  validateJWT : Except Unit String
  getVideo : Except Unit Video
  formFile : Except Unit String
  createTemp : Except Unit String
  copyOk : Bool
  seekOk : Bool
  randRead : Except Unit (List Nat)
  s3PutOk : Bool
  updateVideoOk : Bool

/-- Result of one run of the first handler revision.  Because its early
error paths do not return, a single run can write several responses;
they are listed in the order written. -/
structure V1Outcome where
  responses : List Resp
  world : World
  updateCalls : List Video
deriving Repr, DecidableEq

/-- Embedding of the first revision of handlerUploadVideo.  In this
revision, the error branches for videoID parsing, bearer-token lookup, JWT
validation, GetVideo, the ownership check and FormFile call
respondWithError but do not return, so execution continues with the
failed call's zero value; from the media-type parse on, every error
branch returns.  (The nil file handle dereference Go would hit when
FormFile fails is not modelled; the claims evaluate this revision only
with a successful FormFile.) -/
def handlerUploadVideoV1 (cfg : ApiConfig) (c : V1Collab) (w0 : World) :
    V1Outcome :=
  let rs1 := match c.uuidParse with
    | .error _ => [Resp.err 400 "Invalid video ID"]
    | .ok _ => []
  let rs2 := rs1 ++ (match c.getBearerToken with
    | .error _ => [Resp.err 401 "Couldn't find JWT"]
    | .ok _ => [])
  let rs3 := rs2 ++ (match c.validateJWT with
    | .error _ => [Resp.err 401 "Couldn't validate JWT"]
    | .ok _ => [])
  let userID := match c.validateJWT with
    | .error _ => ""
    | .ok u => u
  let video := match c.getVideo with
    | .error _ => Video.zero
    | .ok v => v
  let rs4 := rs3 ++ (match c.getVideo with
    | .error _ => [Resp.err 404 "Video not found"]
    | .ok _ => [])
  let rs5 := rs4 ++ (if video.userID ≠ userID then
    [Resp.err 401 "You are not authorized to upload this video"] else [])
  let rs6 := rs5 ++ (match c.formFile with
    | .error _ => [Resp.err 400 "Couldn't get video file from form"]
    | .ok _ => [])
  let contentType := match c.formFile with
    | .error _ => ""
    | .ok ct => ct
  match parseMediaType contentType with
  | .error _ => ⟨rs6 ++ [.err 400 "Failed to parse media type"], w0, []⟩
  | .ok parsedMediaType =>
  if parsedMediaType ≠ "video/mp4" then
    ⟨rs6 ++ [.err 400 ("Unsupported file type: " ++ parsedMediaType ++
        ". Only MP4 videos are allowed.")], w0, []⟩
  else
  match c.createTemp with
  | .error _ => ⟨rs6 ++ [.err 500 "Couldn't create temp file"], w0, []⟩
  | .ok tempPath =>
  let w1 := addFile w0 tempPath
  if !c.copyOk then
    ⟨rs6 ++ [.err 500 "Couldn't copy video to temp file"],
      removeFile w1 tempPath, []⟩
  else
  if !c.seekOk then
    ⟨rs6 ++ [.err 500 "Couldn't reset temp file pointer"],
      removeFile w1 tempPath, []⟩
  else
  match c.randRead with
  | .error _ =>
      ⟨rs6 ++ [.err 500 "Could not generate random filename for S3 key"],
        removeFile w1 tempPath, []⟩
  | .ok randBytes =>
  let s3Key := base64RawURLEncode randBytes ++ ".mp4"
  if !c.s3PutOk then
    ⟨rs6 ++ [.err 500 "Couldn't upload file to S3"],
      removeFile w1 tempPath, []⟩
  else
  let w2 := putS3 w1 s3Key contentType
  let videoURL := "https://" ++ cfg.s3Bucket ++ ".s3." ++ cfg.s3Region ++
    ".amazonaws.com/" ++ s3Key
  let video2 := { video with videoURL := some videoURL }
  if !c.updateVideoOk then
    ⟨rs6 ++ [.err 500 "Couldn't update video record"],
      removeFile w2 tempPath, [video2]⟩
  else
    ⟨rs6 ++ [.ok video2],
      removeFile { w2 with dbVideo := some video2 } tempPath, [video2]⟩

/- ### handlerUploadThumbnail, first revision (random-token filename) -/

/-- Oracles for the thumbnail handler, in call order. -/
structure ThumbCollab where
  uuidParse : Except Unit String
  getBearerToken : Except Unit String
  validateJWT : Except Unit String
  parseMultipartFormOk : Bool
  formFile : Except Unit String
  randRead : Except Unit (List Nat)
  createOk : Bool
  copyOk : Bool
  updateVideoOk : Bool

/-- Result of one thumbnail-handler run. -/
structure ThumbOutcome where
  resp : Resp
  world : World
  updateCalls : List Video
deriving Repr, DecidableEq

/-- Embedding of the first revision of handlerUploadThumbnail (the one the
claims cite: random-token filename, media type parsed and checked against
the JPEG/PNG allow-list).  Note the code order: the asset file is created
and written (steps 7–8) before GetVideo and the ownership check (step 9),
and no removal of that file is registered on any path, so the file
persists on every exit after a successful os.Create.  filepath.Join is
modelled as joining with a single slash. -/
def handlerUploadThumbnail (cfg : ApiConfig) (c : ThumbCollab) (w0 : World) :
    ThumbOutcome :=
  match c.uuidParse with
  | .error _ => ⟨.err 400 "Invalid ID", w0, []⟩
  | .ok _videoID =>
  match c.getBearerToken with
  | .error _ => ⟨.err 401 "Couldn't find JWT", w0, []⟩
  | .ok _token =>
  match c.validateJWT with
  | .error _ => ⟨.err 401 "Couldn't validate JWT", w0, []⟩
  | .ok userID =>
  -- 1. parse the form data
  if !c.parseMultipartFormOk then
    ⟨.err 400 "Failed to parse form data", w0, []⟩
  else
  -- 2. image data from the form
  match c.formFile with
  | .error _ => ⟨.err 400 "Couldn't get thumbnail file from form", w0, []⟩
  | .ok mediaType =>
  -- 3. media type from the part header
  if mediaType = "" then
    ⟨.err 400 "Content-Type header is missing", w0, []⟩
  else
  match parseMediaType mediaType with
  | .error _ => ⟨.err 400 "Failed to parse media type", w0, []⟩
  | .ok parsedMediaType =>
  -- 4. allow-list: JPEG or PNG only
  if parsedMediaType ≠ "image/jpeg" ∧ parsedMediaType ≠ "image/png" then
    ⟨.err 400 ("Unsupported file type: " ++ parsedMediaType ++
        ". Only JPEG and PNG are allowed."), w0, []⟩
  else
  match getFileExtension parsedMediaType with
  | .error e => ⟨.err 400 e, w0, []⟩
  | .ok fileExt =>
  -- 5. random base64 filename
  match c.randRead with
  | .error _ => ⟨.err 500 "Could not generate random filename", w0, []⟩
  | .ok randBytes =>
  let filename := base64RawURLEncode randBytes ++ fileExt
  -- 6./7. create the file under the assets root
  let filePath := cfg.assetsRoot ++ "/" ++ filename
  if !c.createOk then
    ⟨.err 500 "Couldn't create file on disk", w0, []⟩
  else
  let w1 := addFile w0 filePath
  -- 8. copy the part's bytes into it
  if !c.copyOk then
    ⟨.err 500 "Couldn't save file to disk", w1, []⟩
  else
  -- 9. fetch the record, then the ownership check
  match w1.dbVideo with
  | none => ⟨.err 404 "Video not found", w1, []⟩
  | some video =>
  if video.userID ≠ userID then
    ⟨.err 401 "You are not authorized to upload a thumbnail for this video",
      w1, []⟩
  else
  -- 10./11. set the thumbnail locator and update the record
  let thumbnailURL := "http://localhost:" ++ cfg.port ++ "/assets/" ++
    filename
  let video2 := { video with thumbnailURL := some thumbnailURL }
  if !c.updateVideoOk then
    ⟨.err 500 "Couldn't update video metadata", w1, [video2]⟩
  else
    ⟨.ok video2, { w1 with dbVideo := some video2 }, [video2]⟩

/- ### Fixtures shared by the concrete runs below -/

def cfgFix : ApiConfig := ⟨"tubely", "us-east-1", "8091", "assets"⟩

def vidFix : Video := ⟨"vid-1", "alice", "my title", none, none⟩

def wFix : World := ⟨[], some vidFix, []⟩

/-- All-success collaborator set for the second video-handler revision:
owner "alice" uploads a declared video/mp4 probed as 1920×1080, with 32
zero bytes from the random source. -/
def cFix : VideoCollab :=
  { uuidParse := .ok "vid-1"
  , getBearerToken := .ok "tok"
  , validateJWT := .ok "alice"
  , formFile := .ok "video/mp4"
  , createTemp := .ok "/tmp/tubely-upload-1.mp4"
  , copyOk := true
  , seekOk := true
  , ffmpegExitOk := true
  , ffmpegWritesOutput := true
  , probe := fun _ => .ok [(1920, 1080)]
  , randRead := .ok (List.replicate 32 0)
  , openProcessedOk := true
  , s3PutOk := true
  , updateVideoOk := true }

/- ### Claim C1 -/

/-- The classification-plus-segment map as a function of one probed pair,
written with the spec's decimal band bounds; shared bridge for C1. -/
theorem seg_classify_eq (w h : Int) (hne : h ≠ 0) :
    s3KeySegmentOfAspect (classifyStreams [(w, h)]) =
      (if (1.70 : ℚ) < (w : ℚ) / (h : ℚ) ∧ (w : ℚ) / (h : ℚ) < 1.80 then
        "landscape"
      else if (0.55 : ℚ) < (w : ℚ) / (h : ℚ) ∧ (w : ℚ) / (h : ℚ) < 0.57 then
        "portrait"
      else "other") := by
  have h17 : (mkRat 17 10 : ℚ) = 1.70 := by norm_num [Rat.mkRat_eq_div]
  have h95 : (mkRat 9 5 : ℚ) = 1.80 := by norm_num [Rat.mkRat_eq_div]
  have h11 : (mkRat 11 20 : ℚ) = 0.55 := by norm_num [Rat.mkRat_eq_div]
  have h57 : (mkRat 57 100 : ℚ) = 0.57 := by norm_num [Rat.mkRat_eq_div]
  simp only [classifyStreams, if_neg hne, Rat.divInt_eq_div, h17, h95, h11,
    h57]
  split_ifs <;> simp [s3KeySegmentOfAspect]

/-- C1: for every probed width/height pair with height > 0, the
classification after the orchestrator's mapping is "landscape" iff
1.70 < width/height < 1.80, "portrait" iff 0.55 < width/height < 0.57,
and "other" otherwise; no streams or height = 0 give "other"; and
getVideoAspectRatio returns exactly the classification of the probed
stream list. -/
theorem c1_aspect_classification (w h : Int) (hh : 0 < h) :
    (s3KeySegmentOfAspect (classifyStreams [(w, h)]) = "landscape" ↔
      (1.70 : ℚ) < (w : ℚ) / (h : ℚ) ∧ (w : ℚ) / (h : ℚ) < 1.80) ∧
    (s3KeySegmentOfAspect (classifyStreams [(w, h)]) = "portrait" ↔
      (0.55 : ℚ) < (w : ℚ) / (h : ℚ) ∧ (w : ℚ) / (h : ℚ) < 0.57) ∧
    (s3KeySegmentOfAspect (classifyStreams [(w, h)]) = "other" ↔
      (¬((1.70 : ℚ) < (w : ℚ) / (h : ℚ) ∧ (w : ℚ) / (h : ℚ) < 1.80) ∧
       ¬((0.55 : ℚ) < (w : ℚ) / (h : ℚ) ∧ (w : ℚ) / (h : ℚ) < 0.57))) ∧
    (∀ (pr : String → Except String (List (Int × Int))) path streams,
      pr path = .ok streams →
      getVideoAspectRatio pr path = .ok (classifyStreams streams)) ∧
    s3KeySegmentOfAspect (classifyStreams []) = "other" ∧
    (∀ (w2 : Int) rest,
      s3KeySegmentOfAspect (classifyStreams ((w2, 0) :: rest)) = "other") := by
  have hne : h ≠ 0 := hh.ne'
  rw [seg_classify_eq w h hne]
  refine ⟨?_, ?_, ?_, ?_, by simp [classifyStreams, s3KeySegmentOfAspect],
    by intro w2 rest; simp [classifyStreams, s3KeySegmentOfAspect]⟩
  · split_ifs with h1 h2 <;> simp [h1]
  · split_ifs with h1 h2
    · have hnb : ¬((0.55 : ℚ) < (w : ℚ) / (h : ℚ) ∧
          (w : ℚ) / (h : ℚ) < 0.57) := by
        rintro ⟨-, hb⟩; linarith [h1.1]
      simp [hnb]
    · simp [h2]
    · simp [h2]
  · split_ifs with h1 h2
    · simp [h1]
    · simp [h1, h2]
    · simp [h1, h2]
  · intro pr path streams hpr
    simp [getVideoAspectRatio, hpr]

/-- C1 witness: a 1920×1080 probe classifies as landscape. -/
theorem c1_witness :
    s3KeySegmentOfAspect (classifyStreams [(1920, 1080)]) = "landscape" :=
  (c1_aspect_classification 1920 1080 (by decide)).1.mpr (by norm_num)

/- ### Claim C2 -/

/-- Collaborators for the first handler revision: the URL's videoID does
not parse, and every later collaborator succeeds (the record exists and is
owned by the authenticated caller). -/
def c2BadIDCollab : V1Collab :=
  { uuidParse := .error ()
  , getBearerToken := .ok "tok"
  , validateJWT := .ok "alice"
  , getVideo := .ok vidFix
  , formFile := .ok "video/mp4"
  , createTemp := .ok "/tmp/tubely-upload-2.mp4"
  , copyOk := true
  , seekOk := true
  , randRead := .ok (List.replicate 32 0)
  , s3PutOk := true
  , updateVideoOk := true }

/-- The record the first-revision run below submits to UpdateVideo: the
fetched record with its video locator set to the S3 URL for the key made
of 32 zero random bytes (token = 43 chars of base64). -/
def c2URL : String :=
  "https://tubely.s3.us-east-1.amazonaws.com/" ++
    String.mk (List.replicate 43 'A') ++ ".mp4"

def c2UpdatedVideo : Video := { vidFix with videoURL := some c2URL }

/-- C2 evaluated at the failing input: in the first revision of
handlerUploadVideo, an invalid video ID writes a 400 error response but
the handler keeps running — it stages, uploads and submits the record
update, then writes a success response after the error one.  (The second
revision returns after every error response.) -/
theorem c2_error_does_not_stop_v1_handler :
    (handlerUploadVideoV1 cfgFix c2BadIDCollab wFix).responses =
      [Resp.err 400 "Invalid video ID", Resp.ok c2UpdatedVideo] ∧
    (handlerUploadVideoV1 cfgFix c2BadIDCollab wFix).updateCalls =
      [c2UpdatedVideo] := by
  decide

/- ### Claim C3 -/

/-- Thumbnail collaborators: authenticated caller "bob" (not the owner
"alice" of the target record), a valid image/png part, and every disk and
random-source step succeeding. -/
def c3ThumbCollab : ThumbCollab :=
  { uuidParse := .ok "vid-1"
  , getBearerToken := .ok "tok"
  , validateJWT := .ok "bob"
  , parseMultipartFormOk := true
  , formFile := .ok "image/png"
  , randRead := .ok (List.replicate 32 0)
  , createOk := true
  , copyOk := true
  , updateVideoOk := true }

/-- Video collaborators identical to the all-success set but authenticated
as "bob", who does not own the record. -/
def c3VideoCollab : VideoCollab := { cFix with validateJWT := .ok "bob" }

/-- C3 counterexample: a thumbnail upload by a non-owner is indeed
rejected with 401, but only after the asset file has been created and
written under the assets root — starting from an empty disk, the rejected
request leaves the asset file on disk, contradicting the claim that no
temporary or asset file exists as a consequence of such a request. -/
theorem c3_counterexample :
    (handlerUploadThumbnail cfgFix c3ThumbCollab wFix).resp =
      .err 401 "You are not authorized to upload a thumbnail for this video" ∧
    wFix.files = [] ∧
    (handlerUploadThumbnail cfgFix c3ThumbCollab wFix).world.files =
      ["assets/" ++ String.mk (List.replicate 43 'A') ++ ".png"] := by
  decide

/-- C3 amended: a non-owner video upload is rejected right after the
record fetch, before any staging, with the world unchanged; a non-owner
thumbnail upload is rejected after the record fetch with no record
mutation, but only after the asset file was created and written, and that
file remains on disk. -/
theorem c3_ownership_check_placement (cfg : ApiConfig) (c : VideoCollab)
    (tc : ThumbCollab) (w : World) (v : Video) (uid : String)
    (hdb : w.dbVideo = some v) (hown : v.userID ≠ uid) :
    (∀ vID tok, c.uuidParse = .ok vID → c.getBearerToken = .ok tok →
      c.validateJWT = .ok uid →
      handlerUploadVideo cfg c w =
        ⟨.err 401 "You are not authorized to upload this video", w, [], []⟩) ∧
    (∀ vID tok mt pmt bs ext, tc.uuidParse = .ok vID →
      tc.getBearerToken = .ok tok → tc.validateJWT = .ok uid →
      tc.parseMultipartFormOk = true → tc.formFile = .ok mt → mt ≠ "" →
      parseMediaType mt = .ok pmt →
      (pmt = "image/jpeg" ∨ pmt = "image/png") →
      getFileExtension pmt = .ok ext →
      tc.randRead = .ok bs → tc.createOk = true → tc.copyOk = true →
      handlerUploadThumbnail cfg tc w =
        ⟨.err 401 "You are not authorized to upload a thumbnail for this video",
          addFile w (cfg.assetsRoot ++ "/" ++ (base64RawURLEncode bs ++ ext)),
          []⟩) := by
  constructor
  · intro vID tok h1 h2 h3
    simp [handlerUploadVideo, h1, h2, h3, hdb, hown]
  · intro vID tok mt pmt bs ext h1 h2 h3 h4 h5 h6 h7 h8 h9 h10 h11 h12
    rcases h8 with h8 | h8 <;> subst h8 <;>
      simp [getFileExtension] at h9 <;> subst h9 <;>
      simp [handlerUploadThumbnail, addFile, h1, h2, h3, h4, h5, h6, h7,
        h10, h11, h12, hdb, hown, getFileExtension]

/-- C3 witness: the amended theorem applied to concrete non-owner runs of
both handlers. -/
theorem c3_witness :
    handlerUploadVideo cfgFix c3VideoCollab wFix =
      ⟨.err 401 "You are not authorized to upload this video", wFix, [], []⟩ ∧
    handlerUploadThumbnail cfgFix c3ThumbCollab wFix =
      ⟨.err 401 "You are not authorized to upload a thumbnail for this video",
        addFile wFix ("assets" ++ "/" ++
          (base64RawURLEncode (List.replicate 32 0) ++ ".png")), []⟩ := by
  have h := c3_ownership_check_placement cfgFix c3VideoCollab c3ThumbCollab
    wFix vidFix "bob" rfl (by decide)
  exact ⟨h.1 "vid-1" "tok" rfl rfl rfl,
    h.2 "vid-1" "tok" "image/png" "image/png" (List.replicate 32 0) ".png"
      rfl rfl rfl rfl rfl (by decide) rfl (Or.inr rfl) rfl rfl rfl rfl⟩

/- ### Claim C4 -/

/-- A string strictly grows when a nonempty suffix is appended; shared by
the cleanup theorems. -/
theorem append_processing_ne (tp : String) : tp ++ ".processing" ≠ tp := by
  intro h
  have hl := congrArg String.length h
  rw [String.length_append] at hl
  have h11 : ".processing".length = 11 := rfl
  omega

/-- All-success collaborators except that ffmpeg exits non-zero after
having written an incomplete output file. -/
def c4Collab : VideoCollab := { cFix with ffmpegExitOk := false }

set_option maxRecDepth 4000 in
/-- C4 counterexample: when ffmpeg exits non-zero leaving an incomplete
output file, the request fails with the processing error and the staged
temp file is removed, but the incomplete processed file (input path plus
".processing") is still on disk afterwards — no removal of it was ever
registered on this path. -/
theorem c4_counterexample :
    (handlerUploadVideo cfgFix c4Collab wFix).resp =
      .err 500 "Couldn't process video for fast start" ∧
    (handlerUploadVideo cfgFix c4Collab wFix).world.files =
      ["/tmp/tubely-upload-1.mp4.processing"] ∧
    (handlerUploadVideo cfgFix c4Collab wFix).world.dbVideo = some vidFix := by
  decide

/-- C4 amended: a non-zero ffmpeg exit makes processVideoForFastStart
return an error, the request fails with the processing error, the staged
temp file is removed and the record is untouched — but an incomplete
processed file written by the failed invocation remains on disk. -/
theorem c4_transcode_failure_cleanup (cfg : ApiConfig) (c : VideoCollab)
    (w : World) (v : Video) (uid vID tok ct tp : String)
    (hdb : w.dbVideo = some v) (hown : v.userID = uid)
    (h1 : c.uuidParse = .ok vID) (h2 : c.getBearerToken = .ok tok)
    (h3 : c.validateJWT = .ok uid) (h4 : c.formFile = .ok ct)
    (h5 : parseMediaType ct = .ok "video/mp4")
    (h6 : c.createTemp = .ok tp) (h7 : c.copyOk = true)
    (h8 : c.seekOk = true) (hff : c.ffmpegExitOk = false) :
    (processVideoForFastStart tp c.ffmpegExitOk c.ffmpegWritesOutput
        (addFile w tp)).1 = .error "could not run ffmpeg" ∧
    (handlerUploadVideo cfg c w).resp =
      .err 500 "Couldn't process video for fast start" ∧
    tp ∉ (handlerUploadVideo cfg c w).world.files ∧
    (handlerUploadVideo cfg c w).world.dbVideo = w.dbVideo ∧
    (handlerUploadVideo cfg c w).updateCalls = [] ∧
    (c.ffmpegWritesOutput = true →
      (tp ++ ".processing") ∈ (handlerUploadVideo cfg c w).world.files) := by
  cases hwo : c.ffmpegWritesOutput <;>
    simp [handlerUploadVideo, processVideoForFastStart, addFile, removeFile,
      h1, h2, h3, h4, h5, h6, h7, h8, hff, hdb, hown, hwo, List.mem_filter,
      append_processing_ne tp, Ne.symm (append_processing_ne tp)]

/-- C4 witness: the amended theorem applied to the concrete failing run. -/
theorem c4_witness :
    (handlerUploadVideo cfgFix c4Collab wFix).resp =
      .err 500 "Couldn't process video for fast start" ∧
    ("/tmp/tubely-upload-1.mp4" ++ ".processing") ∈
      (handlerUploadVideo cfgFix c4Collab wFix).world.files := by
  have h := c4_transcode_failure_cleanup cfgFix c4Collab wFix vidFix "alice"
    "vid-1" "tok" "video/mp4" "/tmp/tubely-upload-1.mp4" rfl rfl rfl rfl rfl
    rfl rfl rfl rfl rfl rfl
  exact ⟨h.2.1, h.2.2.2.2.2 rfl⟩

/- ### Claim C5 -/

theorem string_length_mk (cs : List Char) : (String.mk cs).length = cs.length :=
  rfl

/-- Length of the unpadded URL-safe base64 encoding: for n input bytes the
token has (4n + 2) / 3 characters (integer division), i.e. ⌈4n/3⌉. -/
theorem base64RawURLEncode_length (bs : List Nat) :
    (base64RawURLEncode bs).length = (4 * bs.length + 2) / 3 := by
  induction bs using base64RawURLEncode.induct with
  | case1 => rfl
  | case2 b1 => simp [base64RawURLEncode, string_length_mk]
  | case3 b1 b2 => simp [base64RawURLEncode, string_length_mk]
  | case4 b1 b2 b3 rest ih =>
      simp only [base64RawURLEncode, String.length_append, string_length_mk,
        List.length_cons, List.length_nil, ih]
      omega

/-- C5 counterexample: the all-success 1920×1080 video/mp4 run derives the
key "landscape/" plus a 43-character token plus ".mp4" — the token of 32
random bytes encodes to 43 characters, so no 22-character token can
produce this key. -/
theorem c5_counterexample :
    (handlerUploadVideo cfgFix cFix wFix).world.s3Objects =
      [("landscape/" ++ String.mk (List.replicate 43 'A') ++ ".mp4",
        "video/mp4")] ∧
    ¬∃ t : String, t.length = 22 ∧
      ("landscape/" ++ String.mk (List.replicate 43 'A') ++ ".mp4") =
        "landscape/" ++ t ++ ".mp4" := by
  refine ⟨by decide, ?_⟩
  rintro ⟨t, ht, he⟩
  have hl := congrArg String.length he
  simp only [String.length_append, string_length_mk] at hl
  have e1 : ("landscape/" : String).length = 10 := rfl
  have e2 : (List.replicate 43 'A').length = 43 := by simp
  have e3 : (".mp4" : String).length = 4 := rfl
  omega

/-- C5 amended: every successful upload's key is
"<classification-segment>/<token>.mp4" where the token is the unpadded
URL-safe base64 of the 32 random bytes — hence 43 characters, not 22 —
and a 1920×1080 probe yields the "landscape" segment. -/
theorem c5_key_shape (cfg : ApiConfig) (c : VideoCollab) (w : World)
    (v : Video) (uid vID tok ct tp : String) (streams : List (Int × Int))
    (bs : List Nat)
    (hdb : w.dbVideo = some v) (hown : v.userID = uid)
    (h1 : c.uuidParse = .ok vID) (h2 : c.getBearerToken = .ok tok)
    (h3 : c.validateJWT = .ok uid) (h4 : c.formFile = .ok ct)
    (h5 : parseMediaType ct = .ok "video/mp4")
    (h6 : c.createTemp = .ok tp) (h7 : c.copyOk = true)
    (h8 : c.seekOk = true) (h9 : c.ffmpegExitOk = true)
    (h10 : c.probe tp = .ok streams) (h11 : c.randRead = .ok bs)
    (h12 : c.openProcessedOk = true) (h13 : c.s3PutOk = true) :
    (handlerUploadVideo cfg c w).world.s3Objects =
      w.s3Objects ++
        [(s3KeySegmentOfAspect (classifyStreams streams) ++ "/" ++
            base64RawURLEncode bs ++ ".mp4", ct)] ∧
    (bs.length = 32 → (base64RawURLEncode bs).length = 43) ∧
    (streams = [(1920, 1080)] →
      s3KeySegmentOfAspect (classifyStreams streams) = "landscape") := by
  refine ⟨?_, ?_, ?_⟩
  · cases hu : c.updateVideoOk <;>
      simp [handlerUploadVideo, getVideoAspectRatio,
        processVideoForFastStart, putS3, addFile, removeFile, h1, h2, h3,
        h4, h5, h6, h7, h8, h9, h10, h11, h12, h13, hdb, hown, hu]
  · intro hlen
    rw [base64RawURLEncode_length, hlen]
  · intro hs
    subst hs
    decide

/-- C5 witness: the amended theorem applied to the all-success 1920×1080
run with 32 zero random bytes. -/
theorem c5_witness :
    (handlerUploadVideo cfgFix cFix wFix).world.s3Objects =
      wFix.s3Objects ++
        [(s3KeySegmentOfAspect (classifyStreams [(1920, 1080)]) ++ "/" ++
            base64RawURLEncode (List.replicate 32 0) ++ ".mp4",
          "video/mp4")] ∧
    (base64RawURLEncode (List.replicate 32 0)).length = 43 ∧
    s3KeySegmentOfAspect (classifyStreams [(1920, 1080)]) = "landscape" := by
  have h := c5_key_shape cfgFix cFix wFix vidFix "alice" "vid-1" "tok"
    "video/mp4" "/tmp/tubely-upload-1.mp4" [(1920, 1080)]
    (List.replicate 32 0) rfl rfl rfl rfl rfl rfl rfl rfl rfl rfl rfl rfl
    rfl rfl rfl
  exact ⟨h.1, h.2.1 (by simp), h.2.2 rfl⟩

/- ### Claim C6 -/

/-- C6: every path handed to the prober during a video-upload run is the
staged temp file's path, never the processed output path (the staged path
plus ".processing"). -/
theorem c6_probe_on_staged_path (cfg : ApiConfig) (c : VideoCollab)
    (w : World) (tp : String) (hct : c.createTemp = .ok tp) :
    ∀ p ∈ (handlerUploadVideo cfg c w).probed,
      p = tp ∧ p ≠ tp ++ ".processing" := by
  intro p hp
  unfold handlerUploadVideo processVideoForFastStart at hp
  repeat' first
    | (split at hp)
    | (simp only [] at hp)
  all_goals simp_all [Ne.symm (append_processing_ne tp)]

/-- C6 witness: in the all-success run the prober is called exactly on the
staged path, which differs from the processed output path. -/
theorem c6_witness :
    "/tmp/tubely-upload-1.mp4" = "/tmp/tubely-upload-1.mp4" ∧
    "/tmp/tubely-upload-1.mp4" ≠
      "/tmp/tubely-upload-1.mp4" ++ ".processing" :=
  c6_probe_on_staged_path cfgFix cFix wFix "/tmp/tubely-upload-1.mp4" rfl
    "/tmp/tubely-upload-1.mp4" (by decide)

/- ### Claim C7 -/

set_option maxHeartbeats 1600000 in
/-- C7: every record submitted to the store's UpdateVideo is the whole
fetched record with only the relevant locator field replaced (video
locator for video uploads, thumbnail locator for thumbnail uploads), and
whenever a run ends in an error response the stored record is unchanged. -/
theorem c7_record_update_frame (cfg : ApiConfig) (c : VideoCollab)
    (tc : ThumbCollab) (w : World) :
    (∀ rec ∈ (handlerUploadVideo cfg c w).updateCalls,
      ∃ v url, w.dbVideo = some v ∧ rec = { v with videoURL := some url }) ∧
    ((handlerUploadVideo cfg c w).resp.isErr = true →
      (handlerUploadVideo cfg c w).world.dbVideo = w.dbVideo) ∧
    (∀ rec ∈ (handlerUploadThumbnail cfg tc w).updateCalls,
      ∃ v url, w.dbVideo = some v ∧
        rec = { v with thumbnailURL := some url }) ∧
    ((handlerUploadThumbnail cfg tc w).resp.isErr = true →
      (handlerUploadThumbnail cfg tc w).world.dbVideo = w.dbVideo) := by
  refine ⟨?_, ?_, ?_, ?_⟩
  · intro rec hrec
    unfold handlerUploadVideo processVideoForFastStart at hrec
    repeat' first
      | (split at hrec)
      | (simp only [] at hrec)
    all_goals simp_all [addFile, removeFile, putS3]
  · obtain ⟨o, ho⟩ : ∃ o, handlerUploadVideo cfg c w = o := ⟨_, rfl⟩
    rw [ho]
    unfold handlerUploadVideo processVideoForFastStart at ho
    repeat' first
      | (split at ho)
      | (simp only [] at ho)
    all_goals subst ho
    all_goals simp_all [Resp.isErr, addFile, removeFile, putS3]
  · intro rec hrec
    unfold handlerUploadThumbnail at hrec
    repeat' first
      | (split at hrec)
      | (simp only [addFile] at hrec)
    all_goals simp_all [addFile, removeFile, putS3]
  · obtain ⟨o, ho⟩ : ∃ o, handlerUploadThumbnail cfg tc w = o := ⟨_, rfl⟩
    rw [ho]
    unfold handlerUploadThumbnail at ho
    repeat' first
      | (split at ho)
      | (simp only [addFile] at ho)
    all_goals subst ho
    all_goals simp_all [Resp.isErr, addFile, removeFile, putS3]

/-- Thumbnail collaborators identical to the non-owner set but
authenticated as the owner "alice". -/
def c7ThumbCollab : ThumbCollab :=
  { c3ThumbCollab with validateJWT := .ok "alice" }

/-- The record the all-success video run submits to UpdateVideo. -/
def c7VideoURL : String :=
  "https://tubely.s3.us-east-1.amazonaws.com/landscape/AAAAAAAAAAAAAAAAAAAAAAAAAAAAAAAAAAAAAAAAAAA.mp4"

def c7VideoRec : Video := { vidFix with videoURL := some c7VideoURL }

/-- The record the all-success thumbnail run submits to UpdateVideo. -/
def c7ThumbURL : String := "http://localhost:8091/assets/AAAAAAAAAAAAAAAAAAAAAAAAAAAAAAAAAAAAAAAAAAA.png"

def c7ThumbRec : Video := { vidFix with thumbnailURL := some c7ThumbURL }

/-- C7 witness: the frame-effect theorem applied to the records submitted
by concrete all-success video and thumbnail runs. -/
theorem c7_witness :
    (∃ v url, wFix.dbVideo = some v ∧
      c7VideoRec = { v with videoURL := some url }) ∧
    (∃ v url, wFix.dbVideo = some v ∧
      c7ThumbRec = { v with thumbnailURL := some url }) := by
  have h := c7_record_update_frame cfgFix cFix c7ThumbCollab wFix
  exact ⟨h.1 c7VideoRec (by decide), h.2.2.1 c7ThumbRec (by decide)⟩

/- ### Claim C8 -/

/-- A failure detail "names" a type when the type's text occurs inside the
detail message. -/
def NamesType (msg t : String) : Prop :=
  ∃ pre suf : String, msg = pre ++ t ++ suf

/-- Does the needle occur at the head of the haystack? -/
def leadsWith : List Char → List Char → Bool
  | [], _ => true
  | _ :: _, [] => false
  | a :: as, b :: bs => a == b && leadsWith as bs

/-- Does the needle occur anywhere in the haystack? -/
def containsSeg : List Char → List Char → Bool
  | needle, [] => leadsWith needle []
  | needle, c :: rest => leadsWith needle (c :: rest) || containsSeg needle rest

theorem leadsWith_append (n s : List Char) : leadsWith n (n ++ s) = true := by
  induction n with
  | nil => rfl
  | cons a as ih => simp [leadsWith, ih]

theorem containsSeg_of_leadsWith (n hay : List Char)
    (h : leadsWith n hay = true) : containsSeg n hay = true := by
  cases hay <;> simp [containsSeg, h]

theorem containsSeg_cons (n : List Char) (c : Char) (rest : List Char)
    (h : containsSeg n rest = true) : containsSeg n (c :: rest) = true := by
  simp [containsSeg, h]

theorem containsSeg_append (n p s : List Char) :
    containsSeg n (p ++ (n ++ s)) = true := by
  induction p with
  | nil => exact containsSeg_of_leadsWith n (n ++ s) (leadsWith_append n s)
  | cons c cs ih => exact containsSeg_cons n c (cs ++ (n ++ s)) ih

/-- If a message names a type, the decidable occurrence check finds it. -/
theorem namesType_containsSeg (msg t : String) (h : NamesType msg t) :
    containsSeg t.data msg.data = true := by
  obtain ⟨p, s, rfl⟩ := h
  rw [show ((p ++ t ++ s : String)).data = p.data ++ (t.data ++ s.data) from
    by simp [String.data_append]]
  exact containsSeg_append t.data p.data s.data

/-- All-success collaborators with the declared Content-Type "video/",
which fails mime parsing: the slash is not followed by a token. -/
def c8Collab : VideoCollab := { cFix with formFile := .ok "video/" }

/-- C8 counterexample: a genuinely unparsable declared type ("video/",
which fails Go's expected-token-after-slash check) is rejected with the
fixed detail "Failed to parse media type", which does not name the
rejected type, contradicting the claim that the failure detail names the
rejected type for unparsable types as well.  (A slash-less bare token
such as "video" is not a counterexample: Go accepts it, so it is rejected
by the allow-list with a detail that does name it.) -/
theorem c8_counterexample :
    parseMediaType "video/" = .error () ∧
    (handlerUploadVideo cfgFix c8Collab wFix).resp =
      .err 400 "Failed to parse media type" ∧
    ¬ NamesType "Failed to parse media type" "video/" := by
  refine ⟨rfl, by decide, fun h => absurd (namesType_containsSeg _ _ h)
    (by decide)⟩

/-- Any message shorter than 53 characters differs from the
unsupported-file-type detail, whatever the embedded type text. -/
theorem msg_ne_unsupported (m s : String) (hm : m.length < 53) :
    m ≠ "Unsupported file type: " ++ s ++
      ". Only MP4 videos are allowed." := by
  intro h
  have hl := congrArg String.length h
  rw [String.length_append, String.length_append] at hl
  have e1 : ("Unsupported file type: " : String).length = 23 := rfl
  have e2 : (". Only MP4 videos are allowed." : String).length = 30 := rfl
  omega

/-- C8 amended: the declared type is parsed with parameters stripped and
compared against the allow-list consisting of exactly "video/mp4"; any
other parsed type is rejected with a 400 detail that names the parsed
type; an unparsable type is rejected with the fixed 400 detail
"Failed to parse media type" (which does not name the type); and the
unsupported-file-type rejection occurs exactly when the type parses to
something other than "video/mp4". -/
theorem c8_content_type_validation (cfg : ApiConfig) (c : VideoCollab)
    (w : World) (v : Video) (uid vID tok ct : String)
    (hdb : w.dbVideo = some v) (hown : v.userID = uid)
    (h1 : c.uuidParse = .ok vID) (h2 : c.getBearerToken = .ok tok)
    (h3 : c.validateJWT = .ok uid) (h4 : c.formFile = .ok ct) :
    (parseMediaType ct = .error () →
      (handlerUploadVideo cfg c w).resp =
        .err 400 "Failed to parse media type") ∧
    (∀ t, parseMediaType ct = .ok t → t ≠ "video/mp4" →
      (handlerUploadVideo cfg c w).resp =
        .err 400 ("Unsupported file type: " ++ t ++
          ". Only MP4 videos are allowed.") ∧
      NamesType ("Unsupported file type: " ++ t ++
        ". Only MP4 videos are allowed.") t) ∧
    (∀ s, (handlerUploadVideo cfg c w).resp =
        .err 400 ("Unsupported file type: " ++ s ++
          ". Only MP4 videos are allowed.") →
      parseMediaType ct = .ok s ∧ s ≠ "video/mp4") := by
  refine ⟨?_, ?_, ?_⟩
  · intro hpe
    simp [handlerUploadVideo, h1, h2, h3, h4, hdb, hown, hpe]
  · intro t hpt ht
    refine ⟨?_, "Unsupported file type: ",
      ". Only MP4 videos are allowed.", rfl⟩
    simp [handlerUploadVideo, h1, h2, h3, h4, hdb, hown, hpt, ht]
  · intro s hs
    obtain ⟨o, ho⟩ : ∃ o, handlerUploadVideo cfg c w = o := ⟨_, rfl⟩
    rw [ho] at hs
    unfold handlerUploadVideo processVideoForFastStart at ho
    simp only [h1, h2, h3, h4, hdb] at ho
    rw [if_neg (by simp [hown])] at ho
    repeat' first
      | (split at ho)
      | (simp only [] at ho)
    all_goals subst ho
    all_goals simp_all
    · exact (msg_ne_unsupported _ s (by decide)) hs
    · rename_i xx t heqt hnet
      have hd := congrArg String.data hs
      simp only [String.data_append, List.append_assoc] at hd
      have hts : t = s := String.ext
        (List.append_cancel_right (List.append_cancel_left hd))
      exact ⟨hts, hts ▸ hnet⟩

/-- All-success collaborators with the declared Content-Type
"video/webm": parses cleanly but is not on the allow-list. -/
def c8WebmCollab : VideoCollab := { cFix with formFile := .ok "video/webm" }

/-- All-success collaborators with the slash-less declared Content-Type
"video", which Go's mime parser accepts as a bare token. -/
def c8BareCollab : VideoCollab := { cFix with formFile := .ok "video" }

/-- C8 witness: the amended theorem applied to a concrete unparsable
declared type ("video/"), a concrete parsed-but-disallowed type
("video/webm"), and the bare token "video", which parses to itself and is
rejected with a detail that names it. -/
theorem c8_witness :
    (handlerUploadVideo cfgFix c8Collab wFix).resp =
      .err 400 "Failed to parse media type" ∧
    ((handlerUploadVideo cfgFix c8WebmCollab wFix).resp =
      .err 400 ("Unsupported file type: " ++ "video/webm" ++
        ". Only MP4 videos are allowed.") ∧
    NamesType ("Unsupported file type: " ++ "video/webm" ++
      ". Only MP4 videos are allowed.") "video/webm") ∧
    ((handlerUploadVideo cfgFix c8BareCollab wFix).resp =
      .err 400 ("Unsupported file type: " ++ "video" ++
        ". Only MP4 videos are allowed.") ∧
    NamesType ("Unsupported file type: " ++ "video" ++
      ". Only MP4 videos are allowed.") "video") := by
  have ha := c8_content_type_validation cfgFix c8Collab wFix vidFix "alice"
    "vid-1" "tok" "video/" rfl rfl rfl rfl rfl rfl
  have hb := c8_content_type_validation cfgFix c8WebmCollab wFix vidFix
    "alice" "vid-1" "tok" "video/webm" rfl rfl rfl rfl rfl rfl
  have hc := c8_content_type_validation cfgFix c8BareCollab wFix vidFix
    "alice" "vid-1" "tok" "video" rfl rfl rfl rfl rfl rfl
  exact ⟨ha.1 rfl, hb.2.1 "video/webm" rfl (by decide),
    hc.2.1 "video" rfl (by decide)⟩

/- ### Claim C9 -/

/-- All-success collaborators whose declared Content-Type carries a
parameter: it passes validation (parses to "video/mp4") but is not equal
to the parsed type. -/
def c9Collab : VideoCollab :=
  { cFix with formFile := .ok "video/mp4; codecs=avc1" }

/-- C9 counterexample: with the declared header
"video/mp4; codecs=avc1" the upload passes validation, yet the S3 put
carries the raw header — not the validated parsed type "video/mp4" — as
the content-type metadata. -/
theorem c9_counterexample :
    parseMediaType "video/mp4; codecs=avc1" = .ok "video/mp4" ∧
    (handlerUploadVideo cfgFix c9Collab wFix).world.s3Objects =
      [("landscape/" ++ String.mk (List.replicate 43 'A') ++ ".mp4",
        "video/mp4; codecs=avc1")] ∧
    ("video/mp4; codecs=avc1" : String) ≠ "video/mp4" :=
  ⟨rfl, by decide, by decide⟩

/-- C9 amended: the content-type metadata pushed with the bytes is the
declared Content-Type header value as received (the handler passes
`contentType`, not `parsedMediaType`, to the S3 put); it coincides with
the validated type "video/mp4" exactly when the declared header is
already that bare string. -/
theorem c9_s3_content_type_metadata (cfg : ApiConfig) (c : VideoCollab)
    (w : World) (v : Video) (uid vID tok ct tp : String)
    (streams : List (Int × Int)) (bs : List Nat)
    (hdb : w.dbVideo = some v) (hown : v.userID = uid)
    (h1 : c.uuidParse = .ok vID) (h2 : c.getBearerToken = .ok tok)
    (h3 : c.validateJWT = .ok uid) (h4 : c.formFile = .ok ct)
    (h5 : parseMediaType ct = .ok "video/mp4")
    (h6 : c.createTemp = .ok tp) (h7 : c.copyOk = true)
    (h8 : c.seekOk = true) (h9 : c.ffmpegExitOk = true)
    (h10 : c.probe tp = .ok streams) (h11 : c.randRead = .ok bs)
    (h12 : c.openProcessedOk = true) (h13 : c.s3PutOk = true) :
    (handlerUploadVideo cfg c w).world.s3Objects =
      w.s3Objects ++
        [(s3KeySegmentOfAspect (classifyStreams streams) ++ "/" ++
            base64RawURLEncode bs ++ ".mp4", ct)] ∧
    (∀ p ∈ (handlerUploadVideo cfg c w).world.s3Objects,
      p ∈ w.s3Objects ∨ p.2 = ct) := by
  have hobj : (handlerUploadVideo cfg c w).world.s3Objects =
      w.s3Objects ++
        [(s3KeySegmentOfAspect (classifyStreams streams) ++ "/" ++
            base64RawURLEncode bs ++ ".mp4", ct)] := by
    cases hu : c.updateVideoOk <;>
      simp [handlerUploadVideo, getVideoAspectRatio,
        processVideoForFastStart, putS3, addFile, removeFile, h1, h2, h3,
        h4, h5, h6, h7, h8, h9, h10, h11, h12, h13, hdb, hown, hu]
  refine ⟨hobj, ?_⟩
  intro p hp
  rw [hobj] at hp
  rcases List.mem_append.1 hp with h | h
  · exact Or.inl h
  · simp only [List.mem_singleton] at h
    exact Or.inr (by rw [h])

/-- C9 witness: the amended theorem applied to the concrete run whose
declared header carries a codecs parameter. -/
theorem c9_witness :
    (handlerUploadVideo cfgFix c9Collab wFix).world.s3Objects =
      wFix.s3Objects ++
        [(s3KeySegmentOfAspect (classifyStreams [(1920, 1080)]) ++ "/" ++
            base64RawURLEncode (List.replicate 32 0) ++ ".mp4",
          "video/mp4; codecs=avc1")] := by
  have h := c9_s3_content_type_metadata cfgFix c9Collab wFix vidFix "alice"
    "vid-1" "tok" "video/mp4; codecs=avc1" "/tmp/tubely-upload-1.mp4"
    [(1920, 1080)] (List.replicate 32 0) rfl rfl rfl rfl rfl rfl rfl rfl
    rfl rfl rfl rfl rfl rfl rfl
  exact h.1

/- ### Claim C10 -/

/-- C10: a thumbnail request whose declared type parses to "image/gif" is
rejected by the JPEG/PNG allow-list with a 400 client error before any
disk write or record access — the outcome's world is the input world —
even though getFileExtension itself maps "image/gif" to ".gif" without
error. -/
theorem c10_gif_rejected (cfg : ApiConfig) (tc : ThumbCollab) (w : World)
    (vID tok uid mt : String)
    (h1 : tc.uuidParse = .ok vID) (h2 : tc.getBearerToken = .ok tok)
    (h3 : tc.validateJWT = .ok uid) (h4 : tc.parseMultipartFormOk = true)
    (h5 : tc.formFile = .ok mt) (h6 : mt ≠ "")
    (h7 : parseMediaType mt = .ok "image/gif") :
    handlerUploadThumbnail cfg tc w =
      ⟨.err 400 ("Unsupported file type: " ++ "image/gif" ++
        ". Only JPEG and PNG are allowed."), w, []⟩ ∧
    getFileExtension "image/gif" = .ok ".gif" := by
  constructor
  · simp [handlerUploadThumbnail, h1, h2, h3, h4, h5, h6, h7]
  · rfl

/-- Thumbnail collaborators declaring "image/gif". -/
def c10Collab : ThumbCollab := { c7ThumbCollab with formFile := .ok "image/gif" }

/-- C10 witness: the theorem applied to a concrete image/gif request. -/
theorem c10_witness :
    handlerUploadThumbnail cfgFix c10Collab wFix =
      ⟨.err 400 ("Unsupported file type: " ++ "image/gif" ++
        ". Only JPEG and PNG are allowed."), wFix, []⟩ ∧
    getFileExtension "image/gif" = .ok ".gif" :=
  c10_gif_rejected cfgFix c10Collab wFix "vid-1" "tok" "alice" "image/gif"
    rfl rfl rfl rfl rfl (by decide) rfl
